import Mathlib

/-!
Shallow embedding of `src/pv_app.py` (pv_prognose_app): the synthetic
photovoltaic forecast generator `SimplePVForecast` together with the
presentation steps at its call site (display rounding, CSV export, and the
submission handler).  Machine floating-point numbers are modelled as real
numbers; the ambient numpy random source is passed explicitly as streams of
raw draws, and the generation instant `now` as a real number of hours.
-/

/-- Model of `np.clip(x, lo, hi)`: numpy computes `min(hi, max(x, lo))`. -/
noncomputable def np_clip (x lo hi : ℝ) : ℝ := min hi (max x lo)

/-- Model of `np.linspace(start, stop, num)`: `num` evenly spaced samples from
`start` to `stop` inclusive; the `k`-th element is
`start + (stop - start) * k / (num - 1)`. -/
noncomputable def np_linspace (start stop : ℝ) (num : ℕ) : List ℝ :=
  (List.range num).map (fun (k : ℕ) => start + (stop - start) * (k : ℝ) / ((num : ℝ) - 1))

/-- Model of `np.tile(a, reps)` for a one-dimensional array: `reps` copies of
`a` concatenated. -/
def np_tile {α : Type} (a : List α) : ℕ → List α
  | 0 => []
  | n + 1 => a ++ np_tile a n

/-- Model of `np.random.randint(lo, hi, size)[j]`, fed by a raw stream `bits`
of nonnegative integers: a value in `[lo, hi)`. -/
def np_random_randint (lo hi : ℕ) (bits : ℕ → ℕ) (j : ℕ) : ℕ :=
  lo + bits j % (hi - lo)

/-- Model of `np.random.uniform(lo, hi, size)[j]`, fed by a raw stream `u` of
`random_sample` draws in `[0, 1)`: numpy computes `lo + (hi - lo) * u j`. -/
noncomputable def np_random_uniform (lo hi : ℝ) (u : ℕ → ℝ) (j : ℕ) : ℝ :=
  lo + (hi - lo) * u j

/-- The ambient (process-wide) numpy random source, one raw stream per random
column drawn in `forecast`. -/
structure RandomSource where
  cloudBits : ℕ → ℕ
  tempUnit : ℕ → ℝ
  dniUnit : ℕ → ℝ
  dhiUnit : ℕ → ℝ

/-- The `random_sample` contract: every raw uniform draw lies in `[0, 1)`. -/
def RandomSource.UnitSamples (rng : RandomSource) : Prop :=
  ∀ j, (0 ≤ rng.tempUnit j ∧ rng.tempUnit j < 1) ∧
    (0 ≤ rng.dniUnit j ∧ rng.dniUnit j < 1) ∧
    (0 ≤ rng.dhiUnit j ∧ rng.dhiUnit j < 1)

/-- The five fields stored by `SimplePVForecast.__init__`
(src/pv_app.py lines 10-16). -/
structure SimplePVForecast where
  latitude : ℝ
  longitude : ℝ
  capacity_kw : ℝ
  mounting_type : String
  performance_ratio : ℝ

/-- One row of the DataFrame returned by `forecast` (lines 30-37).
`time` is in hours, so `now + i` models `now + timedelta(hours=i)`. -/
structure ForecastRow where
  time : ℝ
  forecast_power_kw : ℝ
  cloud_cover_percent : ℕ
  temperature_c : ℝ
  DNI : ℝ
  DHI : ℝ

/-- `daily_power` (lines 22-24):
`capacity_kw * performance_ratio * np.clip(np.sin(np.linspace(0, pi, 24)), 0, 1)`. -/
noncomputable def daily_power (m : SimplePVForecast) : List ℝ :=
  (np_linspace 0 Real.pi 24).map
    (fun x => m.capacity_kw * m.performance_ratio * np_clip (Real.sin x) 0 1)

/-- `SimplePVForecast.forecast` (lines 18-38): `hours = days * 24` rows; row
`i` has timestamp `now + i` hours, power from `np.tile(daily_power, days)`,
and four independently drawn weather columns. -/
noncomputable def SimplePVForecast.forecast (m : SimplePVForecast) (now : ℝ)
    (rng : RandomSource) (days : ℕ) : List ForecastRow :=
  (List.range (days * 24)).map (fun (i : ℕ) =>
    { time := now + (i : ℝ)
      forecast_power_kw := (np_tile (daily_power m) days).getD i 0
      cloud_cover_percent := np_random_randint 0 100 rng.cloudBits i
      temperature_c := np_random_uniform 0 30 rng.tempUnit i
      DNI := np_random_uniform 0 1000 rng.dniUnit i
      DHI := np_random_uniform 0 500 rng.dhiUnit i })

/-- The row at index `i` of a series (a default row past the end). -/
noncomputable def rowAt (s : List ForecastRow) (i : ℕ) : ForecastRow :=
  s.getD i ⟨0, 0, 0, 0, 0, 0⟩

/-- Rounding to `n` decimals, as `pandas.Series.round` does (real-valued
model of the float rounding). -/
noncomputable def round_to (n : ℕ) (x : ℝ) : ℝ := (round (x * 10 ^ n) : ℤ) / 10 ^ n

/-- The display table `display_df` (lines 145-149): a copy of the series with
`forecast_power_kw` rounded to 2 decimals, `cloud_cover_percent` rounded to an
integer (it already is one), and `temperature_c` rounded to 1 decimal. -/
noncomputable def display_df (s : List ForecastRow) : List ForecastRow :=
  s.map (fun r =>
    { r with
      forecast_power_kw := round_to 2 r.forecast_power_kw
      temperature_c := round_to 1 r.temperature_c })

/-- A CSV document at field granularity: the literal header line and one
record of the six raw field values per series row (the decimal rendering of
each number is abstracted to the value itself). -/
structure CsvDocument where
  header : String
  records : List (ℝ × ℝ × ℕ × ℝ × ℝ × ℝ)

/-- `forecast.to_csv(index=False)` (line 153): the header line followed by the
raw, unrounded series rows.  The app calls this on `forecast` itself, not on
the rounded `display_df` copy. -/
noncomputable def to_csv (s : List ForecastRow) : CsvDocument :=
  { header := "time,forecast_power_kw,cloud_cover_percent,temperature_c,DNI,DHI"
    records := s.map (fun r =>
      (r.time, r.forecast_power_kw, r.cloud_cover_percent,
        r.temperature_c, r.DNI, r.DHI)) }

/-- Parsing a CSV document back into series rows, record by record. -/
noncomputable def parse_csv (d : CsvDocument) : List ForecastRow :=
  d.records.map (fun t =>
    { time := t.1
      forecast_power_kw := t.2.1
      cloud_cover_percent := t.2.2.1
      temperature_c := t.2.2.2.1
      DNI := t.2.2.2.2.1
      DHI := t.2.2.2.2.2 })

/-- The submission handler (lines 90-104): run the generation inside
`try`, store the result in `st.session_state.forecast` only on success; on an
exception the handler shows an error message and the previously stored series
is left untouched. -/
def processSubmission (stored : Option (List ForecastRow))
    (generation : Except String (List ForecastRow)) : Option (List ForecastRow) :=
  match generation with
  | Except.ok f => some f
  | Except.error _ => stored

/-- A sample plant configuration (the app's default widget values). -/
noncomputable def sampleConfig : SimplePVForecast :=
  { latitude := 48.2
    longitude := 16.4
    capacity_kw := 10
    mounting_type := "Flachdach"
    performance_ratio := 0.85 }

/-- An all-zero random source (a legitimate raw-draw assignment). -/
def zeroRng : RandomSource :=
  { cloudBits := fun _ => 0
    tempUnit := fun _ => 0
    dniUnit := fun _ => 0
    dhiUnit := fun _ => 0 }

lemma np_linspace_length (start stop : ℝ) (num : ℕ) :
    (np_linspace start stop num).length = num := by
  rw [np_linspace, List.length_map, List.length_range]

lemma daily_power_length (m : SimplePVForecast) : (daily_power m).length = 24 := by
  rw [daily_power, List.length_map, np_linspace_length]

lemma np_tile_length {α : Type} (a : List α) (d : ℕ) :
    (np_tile a d).length = d * a.length := by
  induction d with
  | zero => simp [np_tile]
  | succ n ih => simp [np_tile, ih]; ring

lemma forecast_length (m : SimplePVForecast) (now : ℝ) (rng : RandomSource)
    (days : ℕ) : (m.forecast now rng days).length = days * 24 := by
  rw [SimplePVForecast.forecast, List.length_map, List.length_range]

lemma np_tile_getD {α : Type} (a : List α) (d i : ℕ) (dflt : α)
    (hi : i < d * a.length) :
    (np_tile a d).getD i dflt = a.getD (i % a.length) dflt := by
  induction d generalizing i with
  | zero => simp at hi
  | succ n ih =>
    rcases lt_or_le i a.length with hlt | hge
    · rw [np_tile, List.getD_append _ _ _ _ hlt, Nat.mod_eq_of_lt hlt]
    · have h2 : i - a.length < n * a.length := by
        rw [Nat.succ_mul] at hi
        rwa [tsub_lt_iff_right hge]
      rw [np_tile, List.getD_append_right _ _ _ _ hge, ih _ h2,
        Nat.mod_eq_sub_mod hge]

lemma forecast_rowAt (m : SimplePVForecast) (now : ℝ) (rng : RandomSource)
    (days i : ℕ) (hi : i < days * 24) :
    rowAt (m.forecast now rng days) i =
      { time := now + (i : ℝ)
        forecast_power_kw := (np_tile (daily_power m) days).getD i 0
        cloud_cover_percent := np_random_randint 0 100 rng.cloudBits i
        temperature_c := np_random_uniform 0 30 rng.tempUnit i
        DNI := np_random_uniform 0 1000 rng.dniUnit i
        DHI := np_random_uniform 0 500 rng.dhiUnit i } := by
  have hlen : i < (m.forecast now rng days).length := by
    rw [forecast_length]; exact hi
  rw [rowAt, List.getD_eq_getElem _ _ hlen]
  simp [SimplePVForecast.forecast]

lemma np_linspace_getD (start stop : ℝ) (num k : ℕ) (hk : k < num) (d : ℝ) :
    (np_linspace start stop num).getD k d =
      start + (stop - start) * (k : ℝ) / ((num : ℝ) - 1) := by
  have hlen : k < (np_linspace start stop num).length := by
    rw [np_linspace_length]; exact hk
  rw [List.getD_eq_getElem _ _ hlen]
  simp [np_linspace]

lemma daily_power_getD (m : SimplePVForecast) (h : ℕ) (hh : h < 24) :
    (daily_power m).getD h 0 =
      m.capacity_kw * m.performance_ratio *
        np_clip (Real.sin (Real.pi * (h : ℝ) / 23)) 0 1 := by
  have hlen : h < (daily_power m).length := by rw [daily_power_length]; exact hh
  rw [daily_power] at hlen ⊢
  rw [List.getD_eq_getElem _ _ hlen]
  have hk : h < (np_linspace 0 Real.pi 24).length := by
    rw [np_linspace_length]; exact hh
  rw [List.getElem_map, ← List.getD_eq_getElem _ 0 hk, np_linspace_getD _ _ _ _ hh]
  norm_num

lemma forecast_power_eq (m : SimplePVForecast) (now : ℝ) (rng : RandomSource)
    (days i : ℕ) (hi : i < days * 24) :
    (rowAt (m.forecast now rng days) i).forecast_power_kw =
      m.capacity_kw * m.performance_ratio *
        np_clip (Real.sin (Real.pi * ((i % 24 : ℕ) : ℝ) / 23)) 0 1 := by
  rw [forecast_rowAt m now rng days i hi]
  have h1 : i < days * (daily_power m).length := by rw [daily_power_length]; exact hi
  dsimp only
  rw [np_tile_getD _ _ _ _ h1, daily_power_length]
  exact daily_power_getD m (i % 24) (Nat.mod_lt i (by norm_num))

lemma shape_arg_nonneg (h : ℕ) : (0 : ℝ) ≤ Real.pi * (h : ℝ) / 23 := by
  have hπ := Real.pi_pos
  positivity

lemma shape_arg_le_pi (h : ℕ) (hh : h ≤ 23) : Real.pi * (h : ℝ) / 23 ≤ Real.pi := by
  have hπ := Real.pi_pos
  have hc : (h : ℝ) ≤ 23 := by exact_mod_cast hh
  rw [div_le_iff₀ (by norm_num : (0 : ℝ) < 23)]
  nlinarith

lemma sin_shape_nonneg (h : ℕ) (hh : h ≤ 23) :
    0 ≤ Real.sin (Real.pi * (h : ℝ) / 23) :=
  Real.sin_nonneg_of_nonneg_of_le_pi (shape_arg_nonneg h) (shape_arg_le_pi h hh)

lemma np_clip_eq_self (x : ℝ) (h0 : 0 ≤ x) (h1 : x ≤ 1) : np_clip x 0 1 = x := by
  rw [np_clip, max_eq_left h0, min_eq_right h1]

lemma np_clip_nonneg (x : ℝ) : 0 ≤ np_clip x 0 1 :=
  le_min (by norm_num) (le_max_right x 0)

lemma np_clip_le_one (x : ℝ) : np_clip x 0 1 ≤ 1 := min_le_left _ _

lemma sin_shape_peak_aux (g : ℕ) (hg : g ≤ 11) :
    Real.sin (Real.pi * (g : ℝ) / 23) ≤ Real.sin (Real.pi * 11 / 23) := by
  have hπ := Real.pi_pos
  have hc : (g : ℝ) ≤ 11 := by exact_mod_cast hg
  apply Real.sin_le_sin_of_le_of_le_pi_div_two
  · have h0 := shape_arg_nonneg g
    linarith
  · linarith
  · have hkey := mul_nonneg hπ.le (sub_nonneg.mpr hc)
    nlinarith

lemma sin_shape_le_peak (h : ℕ) (hh : h ≤ 23) :
    Real.sin (Real.pi * (h : ℝ) / 23) ≤ Real.sin (Real.pi * 11 / 23) := by
  rcases le_or_lt h 11 with hc | hc
  · exact sin_shape_peak_aux h hc
  · have hcast : ((23 - h : ℕ) : ℝ) = 23 - (h : ℝ) := by
      have := Nat.cast_sub hh (R := ℝ)
      push_cast at this ⊢
      linarith
    have hsub : Real.pi * (h : ℝ) / 23 =
        Real.pi - Real.pi * ((23 - h : ℕ) : ℝ) / 23 := by
      rw [hcast]
      have hc23 : (h : ℝ) ≤ 23 := by exact_mod_cast hh
      ring
    rw [hsub, Real.sin_pi_sub]
    exact sin_shape_peak_aux (23 - h) (by omega)

lemma sin_eleven_twelve :
    Real.sin (Real.pi * 11 / 23) = Real.sin (Real.pi * 12 / 23) := by
  rw [show Real.pi * 12 / 23 = Real.pi - Real.pi * 11 / 23 by ring,
    Real.sin_pi_sub]

lemma sin_eleven_pos : 0 < Real.sin (Real.pi * 11 / 23) := by
  have hπ := Real.pi_pos
  apply Real.sin_pos_of_pos_of_lt_pi
  · positivity
  · linarith

lemma forecast_power_eq_sin (m : SimplePVForecast) (now : ℝ) (rng : RandomSource)
    (days i : ℕ) (hi : i < days * 24) :
    (rowAt (m.forecast now rng days) i).forecast_power_kw =
      m.capacity_kw * m.performance_ratio *
        Real.sin (Real.pi * ((i % 24 : ℕ) : ℝ) / 23) := by
  have hmod : i % 24 < 24 := Nat.mod_lt i (by norm_num)
  rw [forecast_power_eq m now rng days i hi,
    np_clip_eq_self _ (sin_shape_nonneg (i % 24) (by omega)) (Real.sin_le_one _)]

/-- C1: for every plant configuration, generation instant, random source, day
count and row index `i < days * 24`, with `capacity_kw > 0` and
`0 < performance_ratio <= 1`: the power at row `i` equals
`capacity_kw * performance_ratio * clip(sin(pi * (i % 24) / 23), 0, 1)`; it
lies in `[0, capacity_kw * performance_ratio]`; it is `0` when the hour of day
is `0` or `23`; and every row's value is at most the value at row `11`, which
equals the value at row `12` (the maximum is attained at hour 11 or 12). -/
theorem claim_C1 (m : SimplePVForecast) (now : ℝ) (rng : RandomSource)
    (days i : ℕ) (hi : i < days * 24) (hcap : 0 < m.capacity_kw)
    (hpr0 : 0 < m.performance_ratio) (hpr1 : m.performance_ratio ≤ 1) :
    (rowAt (m.forecast now rng days) i).forecast_power_kw =
        m.capacity_kw * m.performance_ratio *
          np_clip (Real.sin (Real.pi * ((i % 24 : ℕ) : ℝ) / 23)) 0 1 ∧
      0 ≤ (rowAt (m.forecast now rng days) i).forecast_power_kw ∧
      (rowAt (m.forecast now rng days) i).forecast_power_kw ≤
        m.capacity_kw * m.performance_ratio ∧
      (i % 24 = 0 ∨ i % 24 = 23 →
        (rowAt (m.forecast now rng days) i).forecast_power_kw = 0) ∧
      (rowAt (m.forecast now rng days) i).forecast_power_kw ≤
        (rowAt (m.forecast now rng days) 11).forecast_power_kw ∧
      (rowAt (m.forecast now rng days) 11).forecast_power_kw =
        (rowAt (m.forecast now rng days) 12).forecast_power_kw := by
  have hd : 0 < days := by
    rcases Nat.eq_zero_or_pos days with h0 | h0
    · rw [h0] at hi; simp at hi
    · exact h0
  have h24 : 24 ≤ days * 24 := by
    calc 24 = 1 * 24 := (one_mul 24).symm
    _ ≤ days * 24 := Nat.mul_le_mul_right 24 hd
  have h11 : 11 < days * 24 := lt_of_lt_of_le (by norm_num) h24
  have h12 : 12 < days * 24 := lt_of_lt_of_le (by norm_num) h24
  have hmod : i % 24 < 24 := Nat.mod_lt i (by norm_num)
  have hcp : 0 ≤ m.capacity_kw * m.performance_ratio := mul_nonneg hcap.le hpr0.le
  have hformula := forecast_power_eq m now rng days i hi
  have hsin := forecast_power_eq_sin m now rng days i hi
  have e11 : (rowAt (m.forecast now rng days) 11).forecast_power_kw =
      m.capacity_kw * m.performance_ratio * Real.sin (Real.pi * 11 / 23) := by
    have := forecast_power_eq_sin m now rng days 11 h11
    norm_num at this
    exact this
  have e12 : (rowAt (m.forecast now rng days) 12).forecast_power_kw =
      m.capacity_kw * m.performance_ratio * Real.sin (Real.pi * 12 / 23) := by
    have := forecast_power_eq_sin m now rng days 12 h12
    norm_num at this
    exact this
  refine ⟨hformula, ?_, ?_, ?_, ?_, ?_⟩
  · rw [hformula]
    exact mul_nonneg hcp (np_clip_nonneg _)
  · rw [hformula]
    calc m.capacity_kw * m.performance_ratio *
        np_clip (Real.sin (Real.pi * ((i % 24 : ℕ) : ℝ) / 23)) 0 1
        ≤ m.capacity_kw * m.performance_ratio * 1 :=
          mul_le_mul_of_nonneg_left (np_clip_le_one _) hcp
    _ = m.capacity_kw * m.performance_ratio := mul_one _
  · rintro (hc | hc) <;> rw [hsin, hc]
    · norm_num
    · rw [show Real.pi * ((23 : ℕ) : ℝ) / 23 = Real.pi by push_cast; ring,
        Real.sin_pi, mul_zero]
  · rw [hsin, e11]
    exact mul_le_mul_of_nonneg_left (sin_shape_le_peak (i % 24) (by omega)) hcp
  · rw [e11, e12, sin_eleven_twelve]

/-- Witness for C1 at the spec's example scenario: `capacity_kw = 10`,
`performance_ratio = 0.85`, `days = 1`, row `i = 23`. -/
theorem claim_C1_witness :
    (23 < 1 * 24 ∧ (0 : ℝ) < sampleConfig.capacity_kw ∧
      (0 : ℝ) < sampleConfig.performance_ratio ∧
      sampleConfig.performance_ratio ≤ 1) ∧
    ((rowAt (sampleConfig.forecast 0 zeroRng 1) 23).forecast_power_kw =
        sampleConfig.capacity_kw * sampleConfig.performance_ratio *
          np_clip (Real.sin (Real.pi * ((23 % 24 : ℕ) : ℝ) / 23)) 0 1 ∧
      0 ≤ (rowAt (sampleConfig.forecast 0 zeroRng 1) 23).forecast_power_kw ∧
      (rowAt (sampleConfig.forecast 0 zeroRng 1) 23).forecast_power_kw ≤
        sampleConfig.capacity_kw * sampleConfig.performance_ratio ∧
      (23 % 24 = 0 ∨ 23 % 24 = 23 →
        (rowAt (sampleConfig.forecast 0 zeroRng 1) 23).forecast_power_kw = 0) ∧
      (rowAt (sampleConfig.forecast 0 zeroRng 1) 23).forecast_power_kw ≤
        (rowAt (sampleConfig.forecast 0 zeroRng 1) 11).forecast_power_kw ∧
      (rowAt (sampleConfig.forecast 0 zeroRng 1) 11).forecast_power_kw =
        (rowAt (sampleConfig.forecast 0 zeroRng 1) 12).forecast_power_kw) :=
  ⟨⟨by norm_num, by norm_num [sampleConfig], by norm_num [sampleConfig],
      by norm_num [sampleConfig]⟩,
    claim_C1 sampleConfig 0 zeroRng 1 23 (by norm_num)
      (by norm_num [sampleConfig]) (by norm_num [sampleConfig])
      (by norm_num [sampleConfig])⟩

lemma forecast_getElem (m : SimplePVForecast) (now : ℝ) (rng : RandomSource)
    (days n : ℕ) (h : n < (m.forecast now rng days).length) :
    (m.forecast now rng days)[n] = rowAt (m.forecast now rng days) n :=
  (List.getD_eq_getElem _ _ h).symm

lemma np_tile_getElem {α : Type} (a : List α) (d n : ℕ) (dflt : α)
    (h : n < (np_tile a d).length) :
    (np_tile a d)[n] = (np_tile a d).getD n dflt :=
  (List.getD_eq_getElem _ _ h).symm

lemma forecast_power_column (m : SimplePVForecast) (now : ℝ) (rng : RandomSource)
    (days : ℕ) :
    (m.forecast now rng days).map (fun r => r.forecast_power_kw) =
      np_tile (daily_power m) days := by
  apply List.ext_getElem
  · rw [List.length_map, forecast_length, np_tile_length, daily_power_length]
  · intro n h1 h2
    have hn : n < days * 24 := by
      rw [List.length_map, forecast_length] at h1; exact h1
    simp only [List.getElem_map, forecast_getElem, np_tile_getElem _ _ _ (0 : ℝ)]
    rw [forecast_rowAt m now rng days n hn]

lemma np_tile_sum (a : List ℝ) (d : ℕ) : (np_tile a d).sum = (d : ℝ) * a.sum := by
  induction d with
  | zero => simp [np_tile]
  | succ n ih =>
    rw [np_tile, List.sum_append, ih]
    push_cast
    ring

/-- C2: for every configuration, generation instant and random source, and
every positive day count `d`, the forecast has exactly `d * 24` rows; in
particular the default `days = 14` yields `336` rows. -/
theorem claim_C2 (m : SimplePVForecast) (now : ℝ) (rng : RandomSource)
    (d : ℕ) (hd : 0 < d) :
    (m.forecast now rng d).length = d * 24 ∧
      (m.forecast now rng 14).length = 336 := by
  refine ⟨forecast_length m now rng d, ?_⟩
  rw [forecast_length]

/-- Witness for C2 at `d = 14`. -/
theorem claim_C2_witness :
    0 < 14 ∧
      ((sampleConfig.forecast 0 zeroRng 14).length = 14 * 24 ∧
        (sampleConfig.forecast 0 zeroRng 14).length = 336) :=
  ⟨by norm_num, claim_C2 sampleConfig 0 zeroRng 14 (by norm_num)⟩

/-- C3: `forecast_power_kw` is periodic with period 24 (`series[i].power =
series[i+24].power` whenever `i + 24` is in range), and the sum of
`forecast_power_kw` over all rows equals `days` times the sum of the
24-value daily shape. -/
theorem claim_C3 (m : SimplePVForecast) (now : ℝ) (rng : RandomSource)
    (days i : ℕ) (hi : i + 24 < days * 24) :
    (rowAt (m.forecast now rng days) i).forecast_power_kw =
        (rowAt (m.forecast now rng days) (i + 24)).forecast_power_kw ∧
      ((m.forecast now rng days).map (fun r => r.forecast_power_kw)).sum =
        (days : ℝ) * (daily_power m).sum := by
  constructor
  · rw [forecast_power_eq m now rng days i (by omega),
      forecast_power_eq m now rng days (i + 24) hi, Nat.add_mod_right]
  · rw [forecast_power_column, np_tile_sum]

/-- Witness for C3 at `days = 14`, `i = 0`. -/
theorem claim_C3_witness :
    0 + 24 < 14 * 24 ∧
      ((rowAt (sampleConfig.forecast 0 zeroRng 14) 0).forecast_power_kw =
          (rowAt (sampleConfig.forecast 0 zeroRng 14) (0 + 24)).forecast_power_kw ∧
        ((sampleConfig.forecast 0 zeroRng 14).map
            (fun r => r.forecast_power_kw)).sum =
          ((14 : ℕ) : ℝ) * (daily_power sampleConfig).sum) :=
  ⟨by norm_num, claim_C3 sampleConfig 0 zeroRng 14 0 (by norm_num)⟩

/-- C4: the timestamp of row `i` is `now + i` hours, and consecutive rows'
timestamps are strictly increasing and differ by exactly one hour. -/
theorem claim_C4 (m : SimplePVForecast) (now : ℝ) (rng : RandomSource)
    (days i : ℕ) (hi : i + 1 < days * 24) :
    (rowAt (m.forecast now rng days) i).time = now + (i : ℝ) ∧
      (rowAt (m.forecast now rng days) (i + 1)).time =
        (rowAt (m.forecast now rng days) i).time + 1 ∧
      (rowAt (m.forecast now rng days) i).time <
        (rowAt (m.forecast now rng days) (i + 1)).time := by
  have h0 : i < days * 24 := by omega
  have e0 : (rowAt (m.forecast now rng days) i).time = now + (i : ℝ) := by
    rw [forecast_rowAt m now rng days i h0]
  have e1 : (rowAt (m.forecast now rng days) (i + 1)).time =
      now + ((i + 1 : ℕ) : ℝ) := by
    rw [forecast_rowAt m now rng days (i + 1) hi]
  refine ⟨e0, ?_, ?_⟩
  · rw [e0, e1]; push_cast; ring
  · rw [e0, e1]; push_cast; linarith

/-- Witness for C4 at `days = 14`, `i = 5`. -/
theorem claim_C4_witness :
    5 + 1 < 14 * 24 ∧
      ((rowAt (sampleConfig.forecast 0 zeroRng 14) 5).time = 0 + ((5 : ℕ) : ℝ) ∧
        (rowAt (sampleConfig.forecast 0 zeroRng 14) (5 + 1)).time =
          (rowAt (sampleConfig.forecast 0 zeroRng 14) 5).time + 1 ∧
        (rowAt (sampleConfig.forecast 0 zeroRng 14) 5).time <
          (rowAt (sampleConfig.forecast 0 zeroRng 14) (5 + 1)).time) :=
  ⟨by norm_num, claim_C4 sampleConfig 0 zeroRng 14 5 (by norm_num)⟩

/-- C5: every row's weather-proxy columns lie in their specified ranges:
`cloud_cover_percent` is an integer in `[0, 100)` (it is a natural number, so
nonnegative by construction), `temperature_c` in `[0, 30)`, `DNI` in
`[0, 1000)` and `DHI` in `[0, 500)`, for any raw draws whose uniform samples
obey the `random_sample` contract. -/
theorem claim_C5 (m : SimplePVForecast) (now : ℝ) (rng : RandomSource)
    (days i : ℕ) (hrng : rng.UnitSamples) (hi : i < days * 24) :
    (rowAt (m.forecast now rng days) i).cloud_cover_percent < 100 ∧
      0 ≤ (rowAt (m.forecast now rng days) i).temperature_c ∧
      (rowAt (m.forecast now rng days) i).temperature_c < 30 ∧
      0 ≤ (rowAt (m.forecast now rng days) i).DNI ∧
      (rowAt (m.forecast now rng days) i).DNI < 1000 ∧
      0 ≤ (rowAt (m.forecast now rng days) i).DHI ∧
      (rowAt (m.forecast now rng days) i).DHI < 500 := by
  obtain ⟨⟨ht0, ht1⟩, ⟨hn0, hn1⟩, ⟨hh0, hh1⟩⟩ := hrng i
  rw [forecast_rowAt m now rng days i hi]
  refine ⟨?_, ?_, ?_, ?_, ?_, ?_, ?_⟩ <;>
    simp only [np_random_randint, np_random_uniform]
  · omega
  · linarith
  · linarith
  · linarith
  · linarith
  · linarith
  · linarith

/-- Witness for C5 with the all-zero random source at `days = 14`, `i = 7`. -/
theorem claim_C5_witness :
    (zeroRng.UnitSamples ∧ 7 < 14 * 24) ∧
      ((rowAt (sampleConfig.forecast 0 zeroRng 14) 7).cloud_cover_percent < 100 ∧
        0 ≤ (rowAt (sampleConfig.forecast 0 zeroRng 14) 7).temperature_c ∧
        (rowAt (sampleConfig.forecast 0 zeroRng 14) 7).temperature_c < 30 ∧
        0 ≤ (rowAt (sampleConfig.forecast 0 zeroRng 14) 7).DNI ∧
        (rowAt (sampleConfig.forecast 0 zeroRng 14) 7).DNI < 1000 ∧
        0 ≤ (rowAt (sampleConfig.forecast 0 zeroRng 14) 7).DHI ∧
        (rowAt (sampleConfig.forecast 0 zeroRng 14) 7).DHI < 500) :=
  ⟨⟨fun _ => by norm_num [zeroRng], by norm_num⟩,
    claim_C5 sampleConfig 0 zeroRng 14 7 (fun _ => by norm_num [zeroRng])
      (by norm_num)⟩

/-- C6: `latitude`, `longitude` and `mounting_type` are dead parameters — two
configurations agreeing on `capacity_kw` and `performance_ratio` produce
identical series for the same generation instant, random source and day
count, whatever their other three fields are. -/
theorem claim_C6 (m1 m2 : SimplePVForecast) (now : ℝ) (rng : RandomSource)
    (days : ℕ) (hc : m1.capacity_kw = m2.capacity_kw)
    (hp : m1.performance_ratio = m2.performance_ratio) :
    m1.forecast now rng days = m2.forecast now rng days := by
  have hdp : daily_power m1 = daily_power m2 := by
    simp only [daily_power, hc, hp]
  simp only [SimplePVForecast.forecast, hdp]

/-- A configuration that differs from `sampleConfig` in latitude, longitude
and mounting type only. -/
noncomputable def movedConfig : SimplePVForecast :=
  { latitude := 45.0
    longitude := 14.0
    capacity_kw := 10
    mounting_type := "Fassade"
    performance_ratio := 0.85 }

/-- Witness for C6: `sampleConfig` and `movedConfig` differ in all three dead
parameters yet generate the same series. -/
theorem claim_C6_witness :
    (sampleConfig.capacity_kw = movedConfig.capacity_kw ∧
      sampleConfig.performance_ratio = movedConfig.performance_ratio) ∧
      sampleConfig.forecast 0 zeroRng 14 = movedConfig.forecast 0 zeroRng 14 :=
  ⟨⟨rfl, rfl⟩, claim_C6 sampleConfig movedConfig 0 zeroRng 14 rfl rfl⟩

/-- C7: the generator has no intrinsic error conditions: for any real
`capacity_kw` and `performance_ratio` (in range or not) and positive `days`
it returns a full `days * 24`-row series; for a negative capacity (with a
positive performance ratio) the output is degenerate — the row at hour 11
has strictly negative power. -/
theorem claim_C7 (m : SimplePVForecast) (now : ℝ) (rng : RandomSource)
    (days : ℕ) (hd : 0 < days) :
    (m.forecast now rng days).length = days * 24 ∧
      (m.capacity_kw < 0 → 0 < m.performance_ratio →
        (rowAt (m.forecast now rng days) 11).forecast_power_kw < 0) := by
  refine ⟨forecast_length m now rng days, fun hcap hpr => ?_⟩
  have h11 : 11 < days * 24 := by
    calc (11 : ℕ) < 24 := by norm_num
    _ = 1 * 24 := (one_mul 24).symm
    _ ≤ days * 24 := Nat.mul_le_mul_right 24 hd
  have e11 := forecast_power_eq_sin m now rng days 11 h11
  norm_num at e11
  rw [e11]
  exact mul_neg_of_neg_of_pos (mul_neg_of_neg_of_pos hcap hpr) sin_eleven_pos

/-- A degenerate configuration with negative capacity. -/
noncomputable def negConfig : SimplePVForecast :=
  { latitude := 48.2
    longitude := 16.4
    capacity_kw := -5
    mounting_type := "Flachdach"
    performance_ratio := 0.85 }

/-- Witness for C7 at the negative-capacity configuration with `days = 14`. -/
theorem claim_C7_witness :
    0 < 14 ∧
      ((negConfig.forecast 0 zeroRng 14).length = 14 * 24 ∧
        (negConfig.capacity_kw < 0 → 0 < negConfig.performance_ratio →
          (rowAt (negConfig.forecast 0 zeroRng 14) 11).forecast_power_kw < 0)) :=
  ⟨by norm_num, claim_C7 negConfig 0 zeroRng 14 (by norm_num)⟩

/-- C8: the CSV export serializes the raw, unrounded series: the header line
is `time,forecast_power_kw,cloud_cover_percent,temperature_c,DNI,DHI`, there
is one record per series row, and parsing the export reproduces the series
exactly — the display-table rounding (`display_df`) never touches it. -/
theorem claim_C8 (s : List ForecastRow) :
    (to_csv s).header =
        "time,forecast_power_kw,cloud_cover_percent,temperature_c,DNI,DHI" ∧
      (to_csv s).records.length = s.length ∧
      parse_csv (to_csv s) = s := by
  refine ⟨rfl, ?_, ?_⟩
  · rw [to_csv]
    exact List.length_map _ _
  · rw [parse_csv, to_csv]
    dsimp only
    rw [List.map_map]
    exact List.map_id'' (fun r => rfl) s

/-- C9: error atomicity at the call site: when the generation raises, the
previously stored series is left unchanged; it is overwritten only when
generation completes successfully. -/
theorem claim_C9 (stored : Option (List ForecastRow)) (e : String)
    (f : List ForecastRow) :
    processSubmission stored (Except.error e) = stored ∧
      processSubmission stored (Except.ok f) = some f :=
  ⟨rfl, rfl⟩

/-- C10: calling `forecast` with `days = 0` returns an empty series with
exactly 0 rows (and does not fail). -/
theorem claim_C10 (m : SimplePVForecast) (now : ℝ) (rng : RandomSource) :
    m.forecast now rng 0 = [] ∧ (m.forecast now rng 0).length = 0 := by
  constructor
  · rw [SimplePVForecast.forecast]
    norm_num
  · rw [forecast_length]
